import Mathlib

/-!
Verification of the exers polyglot code-execution library.

Each definition below is a shallow embedding of a function from the
repository source; the file reference is given in its doc comment.
Stateful or effectful Rust code is modelled by explicit state passing,
environment records (PATH lookup, process spawning, filesystem), and
Except values; Rust panics are modelled as a distinct outcome
constructor, since a panic never returns a value to the caller.
-/

namespace Exers

/-! ### Preprocessors (src/common/preprocessor.rs) -/

/-- Errors that can occur while preprocessing code
(src/common/preprocessor.rs, enum PreprocessorError). -/
inductive PreprocessorError
  | ParserError (msg : String)
  | Other (msg : String)
deriving DecidableEq

/-- A preprocessor stage: a pure function from source text to source text
or a preprocessing error (trait Preprocessor). -/
abbrev Stage := String → Except PreprocessorError String

/-- The derive(Debug) rendering of a PreprocessorError, as it appears in
the panic message of PreprocessorBundle::preprocess.  String escaping
inside the message is not modelled (the inputs used here contain none). -/
def PreprocessorError.debugFormat : PreprocessorError → String
  | .ParserError m => "ParserError(\"" ++ m ++ "\")"
  | .Other m => "Other(\"" ++ m ++ "\")"

/-- Outcome of running the bundle: either a normally returned string, or a
Rust panic carrying its message.  A panic aborts the computation and never
returns a value to the caller. -/
inductive BundleOutcome
  | ok (code : String)
  | errValue (e : PreprocessorError)
  | panicked (msg : String)
deriving DecidableEq

/-- Whether the outcome is a returned preprocessor-error value. -/
def BundleOutcome.isErrValue : BundleOutcome → Bool
  | .errValue _ => true
  | _ => false

/-- PreprocessorBundle::preprocess (src/common/preprocessor.rs lines 59-70):
folds the code through the stages in order; on the first stage error it
panics with the Debug rendering of the error.  The errValue constructor of
BundleOutcome is never produced by this function; it exists so that the
behaviour of returning the error as a value is expressible. -/
def PreprocessorBundle.preprocess : List Stage → String → BundleOutcome
  | [], code => .ok code
  | p :: rest, code =>
    match p code with
    | .ok code2 => PreprocessorBundle.preprocess rest code2
    | .error err => .panicked ("Preprocessor error: " ++ PreprocessorError.debugFormat err)

/-- Sequential left-to-right composition of stages with error propagation.
This is both the mathematical composition the spec describes for bundles
and the fold performed by the builder closure
(src/common/builder.rs lines 112-114). -/
def runStages : List Stage → String → Except PreprocessorError String
  | [], code => .ok code
  | p :: rest, code =>
    match p code with
    | .ok code2 => runStages rest code2
    | .error err => .error err

/-- Fuel-indexed replacement of every occurrence of a nonempty pattern,
scanning left to right; with fuel at least the length of the list this
models Rust str::replace for nonempty patterns (the stages below use
single-character patterns only). -/
def replaceFuel (pat rep : List Char) : Nat → List Char → List Char
  | 0, l => l
  | fuel + 1, l =>
    match l with
    | [] => []
    | c :: rest =>
      if pat.isPrefixOf (c :: rest) && !pat.isEmpty then
        rep ++ replaceFuel pat rep fuel ((c :: rest).drop pat.length)
      else
        c :: replaceFuel pat rep fuel rest

/-- Model of Rust str::replace for nonempty patterns. -/
def strReplace (s pat rep : String) : String :=
  ⟨replaceFuel pat.data rep.data s.data.length s.data⟩

/-- Stage modelling the Rust closure that replaces "a" with "b". -/
def replaceABStage : Stage := fun code => .ok (strReplace code "a" "b")

/-- Stage modelling the Rust closure that replaces "b" with "c". -/
def replaceBCStage : Stage := fun code => .ok (strReplace code "b" "c")

/-- A stage that always fails with a parser error. -/
def failDemoStage : Stage := fun _ => .error (.ParserError "boom")

/-- A stage appending an exclamation mark, used to observe whether stages
after a failing one still run. -/
def tailDemoStage : Stage := fun code => .ok (code ++ "!")

theorem preprocess_ok_of_runStages_ok :
    ∀ (ps : List Stage) (s r : String), runStages ps s = .ok r →
      PreprocessorBundle.preprocess ps s = .ok r := by
  intro ps
  induction ps with
  | nil =>
    intro s r h
    simp [runStages] at h
    simp [PreprocessorBundle.preprocess, h]
  | cons p rest ih =>
    intro s r h
    simp only [runStages] at h
    simp only [PreprocessorBundle.preprocess]
    cases hp : p s with
    | ok code2 =>
      rw [hp] at h
      exact ih code2 r h
    | error e =>
      rw [hp] at h
      exact absurd h (by simp)

theorem preprocess_panics_after_ok_stages :
    ∀ (pre : List Stage) (p : Stage) (rest : List Stage) (s s1 : String)
      (e : PreprocessorError),
      runStages pre s = .ok s1 → p s1 = .error e →
      PreprocessorBundle.preprocess (pre ++ p :: rest) s
        = .panicked ("Preprocessor error: " ++ PreprocessorError.debugFormat e) := by
  intro pre
  induction pre with
  | nil =>
    intro p rest s s1 e hpre hp
    simp [runStages] at hpre
    subst hpre
    simp [PreprocessorBundle.preprocess, hp]
  | cons q qs ih =>
    intro p rest s s1 e hpre hp
    simp only [runStages] at hpre
    cases hq : q s with
    | ok code2 =>
      rw [hq] at hpre
      simpa [PreprocessorBundle.preprocess, hq] using ih p rest code2 s1 e hpre hp
    | error e2 =>
      rw [hq] at hpre
      exact absurd hpre (by simp)

/-- C3: for every bundle and input on which every stage succeeds, applying
the bundle yields the left-to-right composition of the stages; the empty
bundle returns the input unchanged; the bundle of replace a-to-b then
replace b-to-c applied to "a" yields "c". -/
theorem bundle_composition :
    (∀ (ps : List Stage) (s r : String), runStages ps s = .ok r →
        PreprocessorBundle.preprocess ps s = .ok r)
    ∧ (∀ s : String, PreprocessorBundle.preprocess [] s = .ok s)
    ∧ PreprocessorBundle.preprocess [replaceABStage, replaceBCStage] "a" = .ok "c" := by
  refine ⟨preprocess_ok_of_runStages_ok, ?_, ?_⟩
  · intro s
    simp [PreprocessorBundle.preprocess]
  · rfl

theorem bundle_composition_witness :
    PreprocessorBundle.preprocess [replaceABStage] "a" = .ok "b" :=
  bundle_composition.1 [replaceABStage] "a" "b" rfl

/-- C4 counterexample: on a bundle whose first stage fails, the bundle
panics with a formatted message; the outcome is a panic, not the
preprocessor error returned as a value to the caller. -/
theorem bundle_error_counterexample :
    PreprocessorBundle.preprocess [failDemoStage, tailDemoStage] "a"
      = .panicked "Preprocessor error: ParserError(\"boom\")"
    ∧ (PreprocessorBundle.preprocess [failDemoStage, tailDemoStage] "a").isErrValue
        = false
    ∧ BundleOutcome.panicked "Preprocessor error: ParserError(\"boom\")"
        ≠ BundleOutcome.errValue (.ParserError "boom") := by
  refine ⟨rfl, rfl, by simp⟩

/-- C4 amended: if some stage fails (all earlier stages having succeeded),
the bundle panics with a message containing the Debug rendering of that
error instead of returning the error as a value, and no subsequent stage
runs (the outcome does not depend on the stages after the failing one). -/
theorem bundle_error_amended :
    ∀ (pre : List Stage) (p : Stage) (rest : List Stage) (s s1 : String)
      (e : PreprocessorError),
      runStages pre s = .ok s1 → p s1 = .error e →
      PreprocessorBundle.preprocess (pre ++ p :: rest) s
        = .panicked ("Preprocessor error: " ++ PreprocessorError.debugFormat e)
      ∧ PreprocessorBundle.preprocess (pre ++ p :: rest) s
        = PreprocessorBundle.preprocess (pre ++ [p]) s := by
  intro pre p rest s s1 e hpre hp
  constructor
  · exact preprocess_panics_after_ok_stages pre p rest s s1 e hpre hp
  · rw [preprocess_panics_after_ok_stages pre p rest s s1 e hpre hp,
      preprocess_panics_after_ok_stages pre p [] s s1 e hpre hp]

theorem bundle_error_amended_witness :
    PreprocessorBundle.preprocess [failDemoStage, tailDemoStage] "z"
      = .panicked "Preprocessor error: ParserError(\"boom\")"
    ∧ PreprocessorBundle.preprocess [failDemoStage, tailDemoStage] "z"
      = PreprocessorBundle.preprocess [failDemoStage] "z" :=
  bundle_error_amended [] failDemoStage [tailDemoStage] "z" "z"
    (.ParserError "boom") rfl rfl

/-! ### Optimization levels and compiler argv rendering
(src/common/compiler.rs, src/compilers/rust_compiler.rs,
src/compilers/cpp_compiler.rs) -/

/-- Enum OptLevel (src/common/compiler.rs lines 5-21). -/
inductive OptLevel
  | None
  | Speed
  | Size
  | O1
  | O2
  | O3
  | Custom (c : String)
deriving DecidableEq

/-- OptLevel::as_stanard_opt_char (src/common/compiler.rs lines 24-35; the
misspelling is the source name). -/
def OptLevel.as_stanard_opt_char : OptLevel → String
  | .None => "0"
  | .Speed => "fast"
  | .Size => "z"
  | .O1 => "1"
  | .O2 => "2"
  | .O3 => "3"
  | .Custom c => c

/-- The matches test against OptLevel::None used by both IntoArgs impls. -/
def OptLevel.isNoneLevel : OptLevel → Bool
  | .None => true
  | _ => false

/-- RustCompilerConfig (src/compilers/rust_compiler.rs lines 84-91);
codegen_units is a u32, modelled as Nat. -/
structure RustCompilerConfig where
  opt_level : OptLevel
  codegen_units : Nat

/-- IntoArgs for RustCompilerConfig (src/compilers/rust_compiler.rs
lines 113-133): the opt-level pair is pushed only when opt_level is not
None; the codegen-units pair is always pushed. -/
def RustCompilerConfig.into_args (c : RustCompilerConfig) : List String :=
  (if c.opt_level.isNoneLevel then []
   else ["-C", "opt-level=" ++ c.opt_level.as_stanard_opt_char])
  ++ ["-C", "codegen-units=" ++ toString c.codegen_units]

/-- CppCompilerConfig (src/compilers/cpp_compiler.rs lines 84-91). -/
structure CppCompilerConfig where
  opt_level : OptLevel
  additional_flags : List String

/-- IntoArgs for CppCompilerConfig (src/compilers/cpp_compiler.rs
lines 113-127): the -O flag is pushed only when opt_level is not None,
then the user-supplied additional flags are appended. -/
def CppCompilerConfig.into_args (c : CppCompilerConfig) : List String :=
  (if c.opt_level.isNoneLevel then []
   else ["-O" ++ c.opt_level.as_stanard_opt_char])
  ++ c.additional_flags

theorem isNoneLevel_eq_false {l : OptLevel} (h : l ≠ OptLevel.None) :
    l.isNoneLevel = false := by
  cases l <;> simp [OptLevel.isNoneLevel] at h ⊢

/-- C8: when opt_level is None the adapters emit no optimization flag at
all (the Rust argv is exactly the codegen-units pair, the C++ argv is
exactly the user flags); otherwise the flag is rendered from the
canonical character mapping, as "-C" "opt-level=c" for Rust and "-Oc" for
C++, where the mapping sends Speed to "fast", Size to "z", O1, O2, O3 to
"1", "2", "3" and Custom s to s. -/
theorem opt_level_rendering :
    (∀ cu : Nat, RustCompilerConfig.into_args ⟨OptLevel.None, cu⟩
        = ["-C", "codegen-units=" ++ toString cu])
    ∧ (∀ fl : List String, CppCompilerConfig.into_args ⟨OptLevel.None, fl⟩ = fl)
    ∧ (∀ (l : OptLevel) (cu : Nat), l ≠ OptLevel.None →
        RustCompilerConfig.into_args ⟨l, cu⟩
          = ["-C", "opt-level=" ++ l.as_stanard_opt_char,
             "-C", "codegen-units=" ++ toString cu])
    ∧ (∀ (l : OptLevel) (fl : List String), l ≠ OptLevel.None →
        CppCompilerConfig.into_args ⟨l, fl⟩
          = ("-O" ++ l.as_stanard_opt_char) :: fl)
    ∧ OptLevel.as_stanard_opt_char .Speed = "fast"
    ∧ OptLevel.as_stanard_opt_char .Size = "z"
    ∧ OptLevel.as_stanard_opt_char .O1 = "1"
    ∧ OptLevel.as_stanard_opt_char .O2 = "2"
    ∧ OptLevel.as_stanard_opt_char .O3 = "3"
    ∧ (∀ s : String, OptLevel.as_stanard_opt_char (.Custom s) = s) := by
  refine ⟨?_, ?_, ?_, ?_, rfl, rfl, rfl, rfl, rfl, fun s => rfl⟩
  · intro cu
    rfl
  · intro fl
    simp [CppCompilerConfig.into_args, OptLevel.isNoneLevel]
  · intro l cu h
    simp [RustCompilerConfig.into_args, isNoneLevel_eq_false h]
  · intro l fl h
    simp [CppCompilerConfig.into_args, isNoneLevel_eq_false h]

theorem opt_level_rendering_witness :
    RustCompilerConfig.into_args ⟨OptLevel.Speed, 1⟩
      = ["-C", "opt-level=fast", "-C", "codegen-units=1"]
    ∧ CppCompilerConfig.into_args ⟨OptLevel.Custom "s", ["-Wall"]⟩
      = ["-Os", "-Wall"] :=
  ⟨opt_level_rendering.2.2.1 OptLevel.Speed 1 (by simp),
   opt_level_rendering.2.2.2.1 (OptLevel.Custom "s") ["-Wall"] (by simp)⟩

/-! ### Toolchain discovery and compile control flow
(src/common/compiler.rs, src/compilers/...) -/

/-- Enum CompilationError (src/common/compiler.rs lines 48-62); the io
error payload is modelled by its message. -/
inductive CompilationError
  | IoError (msg : String)
  | CompilationFailed (stderr : String)
  | ProgramNotInstalled (program : String)
deriving DecidableEq

/-- check_program_installed (src/common/compiler.rs lines 39-45), with
PATH lookup supplied as an oracle. -/
def check_program_installed (installed : String → Bool) (program : String) :
    Except CompilationError Unit :=
  if !(installed program) then .error (.ProgramNotInstalled program)
  else .ok ()

/-- Captured output of a finished toolchain child process. -/
structure ProcOutput where
  success : Bool
  stderr : String

/-- Host environment a compile adapter interacts with: PATH lookup,
success or io failure of the scratch-directory and source-file setup, and
the result of spawning and waiting on a program (io error message when
the spawn fails, as it does for a binary missing from PATH). -/
structure CompileEnv where
  installed : String → Bool
  tempdir : Except String Unit
  spawn : String → Except String ProcOutput

/-- Outcome of a compile adapter together with a panic case (Rust
unwrap or panic aborts instead of returning). -/
inductive CompileOutcome
  | ok
  | err (e : CompilationError)
  | panicked (msg : String)
deriving DecidableEq

/-- The derive(Debug) rendering of a CompilationError as it appears in
unwrap panic messages. -/
def CompilationError.debugFormat : CompilationError → String
  | .IoError m => "IoError(\"" ++ m ++ "\")"
  | .CompilationFailed m => "CompilationFailed(\"" ++ m ++ "\")"
  | .ProgramNotInstalled m => "ProgramNotInstalled(\"" ++ m ++ "\")"

/-- RustCompiler::compile_with_args (src/compilers/rust_compiler.rs
lines 24-79): the rustc PATH check is propagated with the question-mark
operator before any filesystem work or spawn; the returned list records
which programs were spawned. -/
def RustCompiler.compile_with_args (env : CompileEnv) :
    CompileOutcome × List String :=
  match check_program_installed env.installed "rustc" with
  | .error e => (.err e, [])
  | .ok _ =>
    match env.tempdir with
    | .error m => (.err (.IoError m), [])
    | .ok _ =>
      match env.spawn "rustc" with
      | .error m => (.err (.IoError m), ["rustc"])
      | .ok out =>
        if out.success then (.ok, ["rustc"])
        else (.err (.CompilationFailed out.stderr), ["rustc"])

/-- CppCompiler::compile_with_args (src/compilers/cpp_compiler.rs
lines 24-79): no PATH check happens inside it. -/
def CppCompiler.compile_with_args (env : CompileEnv) (command : String) :
    CompileOutcome × List String :=
  match env.tempdir with
  | .error m => (.err (.IoError m), [])
  | .ok _ =>
    match env.spawn command with
    | .error m => (.err (.IoError m), [command])
    | .ok out =>
      if out.success then (.ok, [command])
      else (.err (.CompilationFailed out.stderr), [command])

/-- Compiler of CppCompiler for the native runtime
(src/compilers/cpp_compiler.rs lines 163-174): the source calls
check_program_installed("clang++") but discards its Result, so the
outcome never depends on it; compilation proceeds regardless. -/
def CppCompiler.compileNative (env : CompileEnv) :
    CompileOutcome × List String :=
  let _ := check_program_installed env.installed "clang++"
  CppCompiler.compile_with_args env "clang++"

/-- Compiler of JsCompiler for the native runtime
(src/compilers/js_compiler.rs lines 18-46): the scratch-directory setup
and the node PATH check are unwrapped, so a failure panics instead of
returning an error; node itself is never spawned at compile time. -/
def JsCompiler.compileNative (env : CompileEnv) :
    CompileOutcome × List String :=
  match env.tempdir with
  | .error m => (.panicked m, [])
  | .ok _ =>
    match check_program_installed env.installed "node" with
    | .error e =>
      (.panicked ("called `Result::unwrap()` on an `Err` value: "
        ++ CompilationError.debugFormat e), [])
    | .ok _ => (.ok, [])

/-- Cython branch of Compiler of PythonCompiler for the native runtime
(src/compilers/python_compiler.rs lines 128-159): after the scratch
directory is set up, the cython PATH check is propagated with the
question-mark operator before cython is spawned; on success the result
is delegated to the C++ adapter. -/
def PythonCompiler.compileCython (env : CompileEnv) :
    CompileOutcome × List String :=
  match env.tempdir with
  | .error m => (.err (.IoError m), [])
  | .ok _ =>
    match check_program_installed env.installed "cython" with
    | .error e => (.err e, [])
    | .ok _ =>
      match env.spawn "cython" with
      | .error m => (.err (.IoError m), ["cython"])
      | .ok out =>
        if out.success then
          let delegated := CppCompiler.compileNative env
          (delegated.1, "cython" :: delegated.2)
        else (.err (.CompilationFailed out.stderr), ["cython"])

/-- Environment in which every toolchain binary is missing from PATH:
spawning any program fails with the os error, the filesystem works. -/
def envNoToolchain : CompileEnv :=
  { installed := fun _ => false
    tempdir := .ok ()
    spawn := fun _ => .error "No such file or directory (os error 2)" }

/-- C6 (code bug evidence): with every toolchain binary missing from
PATH, the Rust adapter returns ProgramNotInstalled("rustc") without
spawning anything and the Python cython branch returns
ProgramNotInstalled("cython"), as the claim states; but the C++ adapter
discards the result of its PATH check and instead spawns clang++ and
returns the io error of the failed spawn, and the JavaScript native
adapter panics on the unwrapped check instead of returning the error. -/
theorem toolchain_check_divergence :
    RustCompiler.compile_with_args envNoToolchain
      = (.err (.ProgramNotInstalled "rustc"), [])
    ∧ PythonCompiler.compileCython envNoToolchain
      = (.err (.ProgramNotInstalled "cython"), [])
    ∧ CppCompiler.compileNative envNoToolchain
      = (.err (.IoError "No such file or directory (os error 2)"), ["clang++"])
    ∧ JsCompiler.compileNative envNoToolchain
      = (.panicked ("called `Result::unwrap()` on an `Err` value: "
          ++ "ProgramNotInstalled(\"node\")"), []) :=
  ⟨rfl, rfl, rfl, rfl⟩

/-! ### Runtime builder and fused executor (src/common/builder.rs) -/

/-- Enum RuntimeBuilderError (src/common/builder.rs lines 48-53). -/
inductive RuntimeBuilderError
  | CompilerNotSet
  | RuntimeNotSet
deriving DecidableEq

/-- Error of the fused executor (src/common/builder.rs lines 171-176),
discriminating compilation from runtime failure. -/
inductive CustomRuntimeError (E : Type)
  | CompilationErr (e : CompilationError)
  | RuntimeErr (e : E)

/-- Struct RuntimeBuilder (src/common/builder.rs lines 32-44): an
accumulator holding the ordered preprocessors, the optional compiler and
runtime, and their optional configs. -/
structure RuntimeBuilder (C R CC RC : Type) where
  preprocessors : List Stage
  compiler : Option C
  runtime : Option R
  compiler_config : Option CC
  runtime_config : Option RC

/-- RuntimeBuilder::build (src/common/builder.rs lines 90-126): validates
that a compiler, then a runtime, have been set (else CompilerNotSet or
RuntimeNotSet), defaults the missing configs, and returns the fused
executor closure that folds the preprocessors, compiles, then runs.  The
actions of the compiler and runtime are passed as functions, and the
lifting of preprocessor errors into compilation errors (the From
conversion the builder closure relies on) as liftPre. -/
def RuntimeBuilder.build {C R CC RC A E X : Type} [Inhabited CC] [Inhabited RC]
    (b : RuntimeBuilder C R CC RC)
    (compileFn : C → CC → String → Except CompilationError A)
    (runFn : R → RC → A → Except E X)
    (liftPre : PreprocessorError → CompilationError) :
    Except RuntimeBuilderError (String → Except (CustomRuntimeError E) X) :=
  match b.compiler with
  | Option.none => .error .CompilerNotSet
  | Option.some compiler =>
    match b.runtime with
    | Option.none => .error .RuntimeNotSet
    | Option.some runtime =>
      let compiler_config := b.compiler_config.getD default
      let runtime_config := b.runtime_config.getD default
      .ok (fun source =>
        match runStages b.preprocessors source with
        | .error e => .error (.CompilationErr (liftPre e))
        | .ok code =>
          match compileFn compiler compiler_config code with
          | .error e => .error (.CompilationErr e)
          | .ok artifact =>
            match runFn runtime runtime_config artifact with
            | .error e => .error (.RuntimeErr e)
            | .ok r => .ok r)

/-- C5: build returns CompilerNotSet when no compiler is set, RuntimeNotSet
when a compiler is set but no runtime, and succeeds with a fused executor
exactly when both are set. -/
theorem runtime_builder_build_validation
    {C R CC RC A E X : Type} [Inhabited CC] [Inhabited RC]
    (b : RuntimeBuilder C R CC RC)
    (compileFn : C → CC → String → Except CompilationError A)
    (runFn : R → RC → A → Except E X)
    (liftPre : PreprocessorError → CompilationError) :
    (b.compiler = Option.none →
      b.build compileFn runFn liftPre = .error .CompilerNotSet)
    ∧ (b.compiler.isSome = true → b.runtime = Option.none →
      b.build compileFn runFn liftPre = .error .RuntimeNotSet)
    ∧ ((∃ f, b.build compileFn runFn liftPre = .ok f) ↔
      b.compiler.isSome = true ∧ b.runtime.isSome = true) := by
  refine ⟨?_, ?_, ?_⟩
  · intro h
    simp [RuntimeBuilder.build, h]
  · intro hc hr
    cases hcc : b.compiler with
    | none => rw [hcc] at hc; simp at hc
    | some compiler => simp [RuntimeBuilder.build, hcc, hr]
  · constructor
    · rintro ⟨f, hf⟩
      cases hcc : b.compiler with
      | none => rw [RuntimeBuilder.build, hcc] at hf; simp at hf
      | some compiler =>
        cases hrr : b.runtime with
        | none => rw [RuntimeBuilder.build, hcc, hrr] at hf; simp at hf
        | some runtime => simp [hcc, hrr, Option.isSome]
    · rintro ⟨hc, hr⟩
      cases hcc : b.compiler with
      | none => rw [hcc] at hc; simp at hc
      | some compiler =>
        cases hrr : b.runtime with
        | none => rw [hrr] at hr; simp at hr
        | some runtime => exact ⟨_, by rw [RuntimeBuilder.build, hcc, hrr]⟩

/-- A builder over Unit components with nothing set. -/
def demoBuilderEmpty : RuntimeBuilder Unit Unit Unit Unit :=
  ⟨[], Option.none, Option.none, Option.none, Option.none⟩

/-- A builder over Unit components with only the compiler set. -/
def demoBuilderNoRuntime : RuntimeBuilder Unit Unit Unit Unit :=
  ⟨[], Option.some (), Option.none, Option.none, Option.none⟩

/-- A builder over Unit components with compiler and runtime set. -/
def demoBuilderFull : RuntimeBuilder Unit Unit Unit Unit :=
  ⟨[], Option.some (), Option.some (), Option.none, Option.none⟩

/-- A trivial compile action for the builder witness. -/
def demoCompileFn : Unit → Unit → String → Except CompilationError Unit :=
  fun _ _ _ => .ok ()

/-- A trivial run action for the builder witness. -/
def demoRunFn : Unit → Unit → Unit → Except Unit Unit :=
  fun _ _ _ => .ok ()

/-- A trivial lifting of preprocessor errors for the builder witness. -/
def demoLiftPre : PreprocessorError → CompilationError :=
  fun _ => .IoError "preprocessor error"

theorem runtime_builder_build_validation_witness :
    RuntimeBuilder.build demoBuilderEmpty demoCompileFn demoRunFn demoLiftPre
      = .error .CompilerNotSet
    ∧ RuntimeBuilder.build demoBuilderNoRuntime demoCompileFn demoRunFn demoLiftPre
      = .error .RuntimeNotSet
    ∧ (∃ f, RuntimeBuilder.build demoBuilderFull demoCompileFn demoRunFn demoLiftPre
      = .ok f) :=
  ⟨(runtime_builder_build_validation demoBuilderEmpty demoCompileFn demoRunFn
      demoLiftPre).1 rfl,
   (runtime_builder_build_validation demoBuilderNoRuntime demoCompileFn demoRunFn
      demoLiftPre).2.1 rfl rfl,
   (runtime_builder_build_validation demoBuilderFull demoCompileFn demoRunFn
      demoLiftPre).2.2.mpr ⟨rfl, rfl⟩⟩

/-! ### Runtime data model (src/common/runtime.rs, src/runtimes/mod.rs) -/

/-- Enum InputData (src/common/runtime.rs lines 6-14). -/
inductive InputData
  | File (path : String)
  | String (s : String)
  | Ignore
deriving DecidableEq

/-- Struct ExecutionResult (src/runtimes/mod.rs lines 37-47); the
Duration is modelled in nanoseconds and exit_code is the i32 value. -/
structure ExecutionResult where
  stdout : Option String
  stderr : Option String
  time_taken : Nat
  exit_code : Int
deriving DecidableEq

/-! ### WASI runtime configuration (src/runtimes/wasm_runtime.rs) -/

/-- Enum WasmCompiler (src/runtimes/wasm_runtime.rs lines 53-62); the
LLVM variant exists only behind the optional wasm-llvm feature and is
omitted here. -/
inductive WasmCompilerSel
  | Cranelift
deriving DecidableEq

/-- Struct WasmConfig (src/runtimes/wasm_runtime.rs lines 26-49),
parametrised by the type of bytecode operators the cost function reads;
gas and memory_limit are usize values, modelled as Nat. -/
structure WasmConfig (Op : Type) where
  gas : Nat
  memory_limit : Nat
  cost_function : Option (Op → Nat)
  stdin : InputData
  compiler : WasmCompilerSel

/-- A metering middleware as built by wasmer_middlewares::Metering::new
(initial points budget and per-operator cost function). -/
structure MeteringModel (Op : Type) where
  points : Nat
  cost_function : Op → Nat

/-- The observable state of a wasmer CompilerConfig: the middlewares
pushed onto it. -/
structure CompilerConfigModel (Op : Type) where
  middlewares : List (MeteringModel Op)

/-- WasmCompiler::get_compiler (src/runtimes/wasm_runtime.rs lines 66-72):
returns a fresh default compiler config, which has no middleware. -/
def WasmCompilerSel.get_compiler (Op : Type) :
    WasmCompilerSel → CompilerConfigModel Op
  | .Cranelift => ⟨[]⟩

/-- The engine-construction step of WasmRuntime::run
(src/runtimes/wasm_runtime.rs lines 166-189): when gas is nonzero, the
cost function (or the constant-1 default) is wrapped into a Metering
middleware with the gas budget and pushed onto the compiler config;
when gas is zero the compiler config is used untouched. -/
def WasmRuntime.compilerConfigFor {Op : Type} (config : WasmConfig Op) :
    CompilerConfigModel Op :=
  if config.gas ≠ 0 then
    let cost_function := config.cost_function.getD (fun _ => 1)
    let metering : MeteringModel Op := ⟨config.gas, cost_function⟩
    let compiler_config := WasmCompilerSel.get_compiler Op config.compiler
    { compiler_config with middlewares := compiler_config.middlewares ++ [metering] }
  else
    WasmCompilerSel.get_compiler Op config.compiler

/-- C1: gas zero installs no metering middleware; gas nonzero pushes one
metering middleware whose budget is the configured gas and whose cost
function is the supplied one, or the constant function 1 when none is
supplied. -/
theorem wasm_run_gas_metering {Op : Type} (config : WasmConfig Op) :
    (config.gas = 0 → (WasmRuntime.compilerConfigFor config).middlewares = [])
    ∧ (config.gas ≠ 0 → (WasmRuntime.compilerConfigFor config).middlewares
        = [⟨config.gas, config.cost_function.getD (fun _ => 1)⟩])
    ∧ (∀ f : Op → Nat, config.gas ≠ 0 → config.cost_function = Option.some f →
        (WasmRuntime.compilerConfigFor config).middlewares = [⟨config.gas, f⟩])
    ∧ (config.gas ≠ 0 → config.cost_function = Option.none →
        (WasmRuntime.compilerConfigFor config).middlewares
          = [⟨config.gas, fun _ => 1⟩]) := by
  refine ⟨?_, ?_, ?_, ?_⟩
  · intro h
    cases hc : config.compiler
    simp [WasmRuntime.compilerConfigFor, h, hc, WasmCompilerSel.get_compiler]
  · intro h
    cases hc : config.compiler
    simp [WasmRuntime.compilerConfigFor, h, hc, WasmCompilerSel.get_compiler]
  · intro f h hf
    cases hc : config.compiler
    simp [WasmRuntime.compilerConfigFor, h, hc, hf, WasmCompilerSel.get_compiler]
  · intro h hf
    cases hc : config.compiler
    simp [WasmRuntime.compilerConfigFor, h, hc, hf, WasmCompilerSel.get_compiler]

/-- A WasmConfig over Unit operators used to instantiate the gas claim. -/
def demoWasmConfig (gas : Nat) (cf : Option (Unit → Nat)) : WasmConfig Unit :=
  ⟨gas, 0, cf, .Ignore, .Cranelift⟩

theorem wasm_run_gas_metering_witness :
    (WasmRuntime.compilerConfigFor (demoWasmConfig 0 Option.none)).middlewares = []
    ∧ (WasmRuntime.compilerConfigFor (demoWasmConfig 7 Option.none)).middlewares
        = [⟨7, fun _ => 1⟩]
    ∧ (WasmRuntime.compilerConfigFor
        (demoWasmConfig 7 (Option.some (fun _ => 3)))).middlewares
        = [⟨7, fun _ => 3⟩] :=
  ⟨(wasm_run_gas_metering (demoWasmConfig 0 Option.none)).1 rfl,
   (wasm_run_gas_metering (demoWasmConfig 7 Option.none)).2.2.2 (by decide) rfl,
   (wasm_run_gas_metering (demoWasmConfig 7 (Option.some (fun _ => 3)))).2.2.1
     (fun _ => 3) (by decide) rfl⟩

/-! ### WASI memory limiting (src/common/runtime.rs, LimitingTunables) -/

/-- Wasmer MemoryError, reduced to the Generic variant the source
constructs. -/
inductive MemoryError
  | Generic (msg : String)
deriving DecidableEq

/-- A wasmer MemoryType: minimum and optional maximum, in 64 KiB pages
(Pages values, u32, modelled as Nat), plus the shared flag. -/
structure MemoryTypeModel where
  minimum : Nat
  maximum : Option Nat
  shared : Bool
deriving DecidableEq

/-- The tunables state installed by LimitingTunables::new: the page cap. -/
structure LimitingTunablesModel where
  limit : Nat
deriving DecidableEq

/-- LimitingTunables::adjust_memory (src/common/runtime.rs lines 32-38):
clamps a missing declared maximum down to the cap, leaving everything
else unchanged. -/
def LimitingTunables.adjust_memory (t : LimitingTunablesModel)
    (requested : MemoryTypeModel) : MemoryTypeModel :=
  if requested.maximum = Option.none then { requested with maximum := Option.some t.limit }
  else requested

/-- LimitingTunables::validate_memory (src/common/runtime.rs lines 41-61):
rejects a minimum above the cap, then a present maximum above the cap,
then an absent maximum (the misspelt message is the source text). -/
def LimitingTunables.validate_memory (t : LimitingTunablesModel)
    (memory : MemoryTypeModel) : Except MemoryError Unit :=
  if memory.minimum > t.limit then
    .error (.Generic "Minimum memory exceeds the limit")
  else
    match memory.maximum with
    | Option.some maximum =>
      if maximum > t.limit then .error (.Generic "Maximum memory exceeds the limit")
      else .ok ()
    | Option.none => .error (.Generic "Maxiumum memory is not specified")

/-- LimitingTunables::create_host_memory (src/common/runtime.rs
lines 74-82): adjusts the requested type, validates the adjusted type,
and hands the adjusted type to the base tunables, which create a memory
of exactly that type (create_vm_memory follows the same sequence). -/
def LimitingTunables.create_host_memory (t : LimitingTunablesModel)
    (ty : MemoryTypeModel) : Except MemoryError MemoryTypeModel :=
  match LimitingTunables.validate_memory t (LimitingTunables.adjust_memory t ty) with
  | .error e => .error e
  | .ok _ => .ok (LimitingTunables.adjust_memory t ty)

/-- The tunables-installation step of WasmRuntime::run
(src/runtimes/wasm_runtime.rs lines 191-197): a LimitingTunables with cap
Pages(memory_limit as u32) is installed if and only if memory_limit is
nonzero (the as-cast truncates the usize to 32 bits). -/
def WasmRuntime.installedTunables {Op : Type} (config : WasmConfig Op) :
    Option LimitingTunablesModel :=
  if config.memory_limit ≠ 0 then Option.some ⟨config.memory_limit % 4294967296⟩
  else Option.none

/-- C2: zero memory_limit installs no tunable; nonzero installs the
limiting tunable with the configured cap; validate_memory rejects a
declared minimum above the cap and rejects an unset declared maximum;
adjust_memory clamps an unset declared maximum down to the cap; and
every memory creation through the tunable either fails with a memory
error or produces a memory whose maximum is present and at most the
cap. -/
theorem wasm_memory_limit_enforcement {Op : Type} (config : WasmConfig Op)
    (t : LimitingTunablesModel) (mem : MemoryTypeModel) :
    (config.memory_limit = 0 →
      WasmRuntime.installedTunables config = Option.none)
    ∧ (config.memory_limit ≠ 0 →
      WasmRuntime.installedTunables config
        = Option.some ⟨config.memory_limit % 4294967296⟩)
    ∧ (mem.minimum > t.limit →
      LimitingTunables.validate_memory t mem
        = .error (.Generic "Minimum memory exceeds the limit"))
    ∧ (mem.maximum = Option.none →
      ∃ m, LimitingTunables.validate_memory t mem = .error (.Generic m))
    ∧ (mem.maximum = Option.none →
      (LimitingTunables.adjust_memory t mem).maximum = Option.some t.limit)
    ∧ (∀ created, LimitingTunables.create_host_memory t mem = .ok created →
      ∃ m, created.maximum = Option.some m ∧ m ≤ t.limit) := by
  refine ⟨?_, ?_, ?_, ?_, ?_, ?_⟩
  · intro h
    simp [WasmRuntime.installedTunables, h]
  · intro h
    simp [WasmRuntime.installedTunables, h]
  · intro h
    simp [LimitingTunables.validate_memory, h]
  · intro h
    by_cases hmin : mem.minimum > t.limit
    · exact ⟨"Minimum memory exceeds the limit",
        by simp [LimitingTunables.validate_memory, hmin]⟩
    · exact ⟨"Maxiumum memory is not specified",
        by simp [LimitingTunables.validate_memory, hmin, h]⟩
  · intro h
    simp [LimitingTunables.adjust_memory, h]
  · intro created hok
    unfold LimitingTunables.create_host_memory at hok
    cases hval : LimitingTunables.validate_memory t (LimitingTunables.adjust_memory t mem) with
    | error e => rw [hval] at hok; simp at hok
    | ok u =>
      rw [hval] at hok
      simp only [Except.ok.injEq] at hok
      subst hok
      unfold LimitingTunables.validate_memory at hval
      by_cases hmin : (LimitingTunables.adjust_memory t mem).minimum > t.limit
      · simp [hmin] at hval
      · cases hmax : (LimitingTunables.adjust_memory t mem).maximum with
        | none => simp [hmin, hmax] at hval
        | some maximum =>
          simp only [hmin, if_false, hmax] at hval
          by_cases hgt : maximum > t.limit
          · simp [hgt] at hval
          · exact ⟨maximum, rfl, Nat.le_of_not_lt hgt⟩

/-- Concrete inputs for the memory-limit claim: a cap of 100 pages and a
memory declaring minimum 3 with no maximum. -/
def demoTunables : LimitingTunablesModel := ⟨100⟩

theorem wasm_memory_limit_enforcement_witness :
    WasmRuntime.installedTunables (demoWasmConfig 0 Option.none) = Option.none
    ∧ WasmRuntime.installedTunables
        (⟨0, 100, Option.none, .Ignore, .Cranelift⟩ : WasmConfig Unit)
        = Option.some ⟨100⟩
    ∧ LimitingTunables.validate_memory demoTunables ⟨101, Option.some 50, false⟩
        = .error (.Generic "Minimum memory exceeds the limit")
    ∧ (∃ m, LimitingTunables.validate_memory demoTunables ⟨3, Option.none, false⟩
        = .error (.Generic m))
    ∧ (LimitingTunables.adjust_memory demoTunables ⟨3, Option.none, false⟩).maximum
        = Option.some 100
    ∧ (∃ m, (⟨3, Option.some 100, false⟩ : MemoryTypeModel).maximum = Option.some m
        ∧ m ≤ 100) :=
  ⟨(wasm_memory_limit_enforcement (demoWasmConfig 0 Option.none) demoTunables
      ⟨3, Option.none, false⟩).1 rfl,
   (wasm_memory_limit_enforcement
      (⟨0, 100, Option.none, .Ignore, .Cranelift⟩ : WasmConfig Unit) demoTunables
      ⟨3, Option.none, false⟩).2.1 (by decide),
   (wasm_memory_limit_enforcement (demoWasmConfig 0 Option.none) demoTunables
      ⟨101, Option.some 50, false⟩).2.2.1 (by decide),
   (wasm_memory_limit_enforcement (demoWasmConfig 0 Option.none) demoTunables
      ⟨3, Option.none, false⟩).2.2.2.1 rfl,
   (wasm_memory_limit_enforcement (demoWasmConfig 0 Option.none) demoTunables
      ⟨3, Option.none, false⟩).2.2.2.2.1 rfl,
   (wasm_memory_limit_enforcement (demoWasmConfig 0 Option.none) demoTunables
      ⟨3, Option.none, false⟩).2.2.2.2.2 ⟨3, Option.some 100, false⟩ rfl⟩

/-! ### Stdin handling (src/runtimes/native_runtime.rs lines 68-99,
src/runtimes/wasm_runtime.rs lines 208-221) -/

/-- The sequence of write_all calls NativeRuntime::run makes to the
child stdin pipe, given an oracle for file contents: for Ignore the
stdin is a null device and nothing is written; for String the literal
bytes are written; for File the file contents are copied. -/
def NativeRuntime.stdinWrites (files : String → String) :
    InputData → List String
  | .Ignore => []
  | .String data => [data]
  | .File path => [files path]

/-- The sequence of write_all calls WasmRuntime::run makes to the stdin
pipe: for String the literal bytes followed by one newline write; for
File the file contents; for Ignore nothing. -/
def WasmRuntime.stdinWrites (files : String → String) :
    InputData → List String
  | .String input => [input, "\n"]
  | .File path => [files path]
  | .Ignore => []

/-- C7: for the String stdin variant the native runtime writes exactly
the bytes of the string with no appended newline, while the WASI runtime
writes the bytes followed by exactly one newline; for the Ignore variant
neither runtime writes any stdin bytes. -/
theorem stdin_write_policy (files : String → String) (s : String) :
    String.join (NativeRuntime.stdinWrites files (.String s)) = s
    ∧ String.join (WasmRuntime.stdinWrites files (.String s)) = s ++ "\n"
    ∧ NativeRuntime.stdinWrites files .Ignore = []
    ∧ WasmRuntime.stdinWrites files .Ignore = [] := by
  refine ⟨?_, ?_, rfl, rfl⟩
  · simp [NativeRuntime.stdinWrites, String.join]
  · simp [WasmRuntime.stdinWrites, String.join]

/-! ### Execution-result assembly (src/runtimes/native_runtime.rs
lines 107-126, src/runtimes/wasm_runtime.rs lines 266-280) -/

/-- Captured output of a finished native child process:
stdout and stderr bytes and the optional exit status code. -/
structure ProcessOutput where
  stdout : String
  stderr : String
  code : Option Int
deriving DecidableEq

/-- The result-assembly tail of NativeRuntime::run: a captured stream of
length zero is reported as none, otherwise wrapped in some; the exit
code is the status code, or zero when unavailable. -/
def NativeRuntime.assembleResult (output : ProcessOutput) (time_taken : Nat) :
    ExecutionResult :=
  { stdout := if output.stdout.length = 0 then Option.none else Option.some output.stdout
    stderr := if output.stderr.length = 0 then Option.none else Option.some output.stderr
    time_taken := time_taken
    exit_code := output.code.getD 0 }

/-- The result-assembly tail of WasmRuntime::run: both drained pipe
contents are wrapped in some unconditionally and the exit code is the
literal zero. -/
def WasmRuntime.assembleResult (stdout stderr : String) (time_taken : Nat) :
    ExecutionResult :=
  { stdout := Option.some stdout
    stderr := Option.some stderr
    time_taken := time_taken
    exit_code := 0 }

theorem string_length_eq_zero_iff {s : String} : s.length = 0 ↔ s = "" := by
  constructor
  · intro h
    cases s with
    | mk data =>
      simp only [String.length] at h
      rw [List.length_eq_zero.mp h]
  · intro h
    subst h
    rfl

/-- C10: a successful WASI run reports stdout and stderr as some captured
text, some "" included when the guest wrote nothing, and exit code zero
regardless of the captured content; the native runtime reports an empty
captured stream as none and a nonempty one as some, and uses the child
status code, defaulting to zero only when the status is unavailable. -/
theorem execution_result_reporting (out err : String) (t : Nat)
    (output : ProcessOutput) :
    (WasmRuntime.assembleResult out err t).stdout = Option.some out
    ∧ (WasmRuntime.assembleResult out err t).stderr = Option.some err
    ∧ (WasmRuntime.assembleResult out err t).exit_code = 0
    ∧ (WasmRuntime.assembleResult "" err t).stdout = Option.some ""
    ∧ ((NativeRuntime.assembleResult output t).stdout = Option.none
        ↔ output.stdout = "")
    ∧ (output.stdout ≠ "" →
        (NativeRuntime.assembleResult output t).stdout = Option.some output.stdout)
    ∧ ((NativeRuntime.assembleResult output t).stderr = Option.none
        ↔ output.stderr = "")
    ∧ (∀ c : Int, output.code = Option.some c →
        (NativeRuntime.assembleResult output t).exit_code = c)
    ∧ (output.code = Option.none →
        (NativeRuntime.assembleResult output t).exit_code = 0) := by
  refine ⟨rfl, rfl, rfl, rfl, ?_, ?_, ?_, ?_, ?_⟩
  · simp only [NativeRuntime.assembleResult]
    by_cases h : output.stdout.length = 0
    · simp [h, string_length_eq_zero_iff.mp h]
    · simp [h]
      intro hc
      exact h (string_length_eq_zero_iff.mpr hc)
  · intro h
    have : output.stdout.length ≠ 0 := fun hl => h (string_length_eq_zero_iff.mp hl)
    simp [NativeRuntime.assembleResult, this]
  · simp only [NativeRuntime.assembleResult]
    by_cases h : output.stderr.length = 0
    · simp [h, string_length_eq_zero_iff.mp h]
    · simp [h]
      intro hc
      exact h (string_length_eq_zero_iff.mpr hc)
  · intro c hc
    simp [NativeRuntime.assembleResult, hc]
  · intro hc
    simp [NativeRuntime.assembleResult, hc]

theorem execution_result_reporting_witness :
    (WasmRuntime.assembleResult "hi" "" 5).stdout = Option.some "hi"
    ∧ (WasmRuntime.assembleResult "hi" "" 5).exit_code = 0
    ∧ (NativeRuntime.assembleResult ⟨"", "oops", Option.some 3⟩ 5).stdout
        = Option.none
    ∧ (NativeRuntime.assembleResult ⟨"ho", "oops", Option.some 3⟩ 5).stdout
        = Option.some "ho"
    ∧ (NativeRuntime.assembleResult ⟨"", "oops", Option.some 3⟩ 5).exit_code = 3 :=
  ⟨(execution_result_reporting "hi" "" 5 ⟨"", "oops", Option.some 3⟩).1,
   (execution_result_reporting "hi" "" 5 ⟨"", "oops", Option.some 3⟩).2.2.1,
   (execution_result_reporting "hi" "" 5
      ⟨"", "oops", Option.some 3⟩).2.2.2.2.1.mpr rfl,
   (execution_result_reporting "hi" "" 5
      ⟨"ho", "oops", Option.some 3⟩).2.2.2.2.2.1 (by decide),
   (execution_result_reporting "hi" "" 5
      ⟨"", "oops", Option.some 3⟩).2.2.2.2.2.2.2.1 3 rfl⟩

/-! ### Artifact cleanup (src/compilers/mod.rs lines 63-80) -/

/-- An event recording that the scratch directory with the given path was
closed, that is deleted from disk. -/
inductive CleanupEvent
  | closed (dir : String)
deriving DecidableEq

/-- CompiledCode::clean_up: takes the TempDir out of the shared
Option under the mutex; when one was still present it is closed
(deleting the directory, with closeResult giving the io outcome of that
deletion), otherwise nothing happens and Ok is returned.  The state is
the content of the shared handle, the middle component is the list of
deletion events. -/
def CompiledCode.clean_up (closeResult : String → Except String Unit) :
    Option String → Option String × List CleanupEvent × Except String Unit
  | Option.some dir => (Option.none, [.closed dir], closeResult dir)
  | Option.none => (Option.none, [], .ok ())

/-- Drop for CompiledCode calls clean_up (and unwraps its result); the
state transition and deletion events are those of clean_up. -/
def CompiledCode.dropArtifact (closeResult : String → Except String Unit)
    (st : Option String) : Option String × List CleanupEvent × Except String Unit :=
  CompiledCode.clean_up closeResult st

/-- Runs n successive clean_up calls (explicit clean_up calls and the
final drop alike), collecting all deletion events. -/
def CompiledCode.cleanupSeq (closeResult : String → Except String Unit) :
    Option String → Nat → Option String × List CleanupEvent
  | st, 0 => (st, [])
  | st, n + 1 =>
    let step := CompiledCode.clean_up closeResult st
    let rest := CompiledCode.cleanupSeq closeResult step.1 n
    (rest.1, step.2.1 ++ rest.2)

theorem cleanupSeq_none (closeResult : String → Except String Unit) :
    ∀ n : Nat, CompiledCode.cleanupSeq closeResult Option.none n = (Option.none, []) := by
  intro n
  induction n with
  | zero => rfl
  | succ n ih => simp [CompiledCode.cleanupSeq, CompiledCode.clean_up, ih]

/-- C9: the scratch-directory deletion happens at most once per artifact
handle: a second explicit clean_up is a no-op returning success, a drop
after an explicit clean_up deletes nothing further, and any nonempty
sequence of clean_up and drop calls starting from a live handle deletes
the directory exactly once, at the first call. -/
theorem cleanup_idempotent (closeResult : String → Except String Unit)
    (dir : String) (st : Option String) (n : Nat) (h : 1 ≤ n) :
    CompiledCode.clean_up closeResult
        (CompiledCode.clean_up closeResult st).1
      = (Option.none, [], .ok ())
    ∧ CompiledCode.dropArtifact closeResult
        (CompiledCode.clean_up closeResult st).1
      = (Option.none, [], .ok ())
    ∧ (CompiledCode.cleanupSeq closeResult (Option.some dir) n).2
      = [.closed dir] := by
  refine ⟨?_, ?_, ?_⟩
  · cases st <;> rfl
  · cases st <;> rfl
  · cases n with
    | zero => exact absurd h (by simp)
    | succ n =>
      simp [CompiledCode.cleanupSeq, CompiledCode.clean_up,
        cleanupSeq_none closeResult n]

theorem cleanup_idempotent_witness :
    CompiledCode.clean_up (fun _ => .ok ())
        (CompiledCode.clean_up (fun _ => .ok ()) (Option.some "scratch")).1
      = (Option.none, [], .ok ())
    ∧ CompiledCode.dropArtifact (fun _ => .ok ())
        (CompiledCode.clean_up (fun _ => .ok ()) (Option.some "scratch")).1
      = (Option.none, [], .ok ())
    ∧ (CompiledCode.cleanupSeq (fun _ => .ok ()) (Option.some "scratch") 2).2
      = [.closed "scratch"] :=
  cleanup_idempotent (fun _ => .ok ()) "scratch" (Option.some "scratch") 2
    (by decide)

end Exers
